import Mathlib

/-!
Verification of the MELD response-normalization pipeline
(`meld_ollama.py`, class `MELDProcessor`).

The source is shallowly embedded:

* JSON values (`json.loads` results and pydantic model input) become the
  inductive `JValue`; Python floats are modelled exactly as rationals.
* pydantic strict model validation (`MELDMessage.model_validate_json`)
  becomes `validateMELD : JValue → Option MELDMessage`; `none` is a
  `ValidationError`.  Raw transport text is modelled at the JSON boundary:
  it is either unparsable or a parsed `JValue` (`RawText`).
* Fallible Python code (attribute errors on `.get`, type errors in
  `min`/`max`, pydantic errors at model construction) returns `Option`;
  `none` is a raised exception.  Every call site catches all exception
  kinds uniformly (bare `except:`), so exception identity is not
  observable and need not be distinguished.
* The processor's mutable state (`interaction_history`,
  `performance_stats`, `last_processing_time`, `last_user_query`) is the
  structure `ProcState`, threaded explicitly.  Wall-clock readings
  (`time.time()` differences) and the transport outcome are inputs.
-/

/-- A JSON value: the result of `json.loads`, also the payload seen by
pydantic validation.  Numbers are modelled as rationals. -/
inductive JValue where
  | null : JValue
  | bool (b : Bool) : JValue
  | num (q : ℚ) : JValue
  | str (s : String) : JValue
  | arr (xs : List JValue) : JValue
  | obj (kvs : List (String × JValue)) : JValue

/-- Dictionary lookup on the key/value pairs of a JSON object. -/
def jLook (kvs : List (String × JValue)) (k : String) : Option JValue :=
  kvs.lookup k

/-- Python `data.get(k, d)`: the value when `data` is a dict holding `k`,
the default `d` when the key is absent, and a raised `AttributeError`
(modelled as `none`) when `data` is not a dict. -/
def pyGet (v : JValue) (k : String) (d : JValue) : Option JValue :=
  match v with
  | .obj kvs => some ((jLook kvs k).getD d)
  | _ => none

/-- Pydantic validation of a required `str` field value: a Python `str`
passes, anything else (including `None`) raises `ValidationError`. -/
def pyReqStr : JValue → Option String
  | .str s => some s
  | _ => none

/-- Pydantic validation of an `Optional[str]` field value: `None` and
`str` pass, anything else raises `ValidationError`. -/
def pyOptStr : JValue → Option (Option String)
  | .str s => some (some s)
  | .null => some none
  | _ => none

/-- Python `min(max(x, lo), hi)` followed by pydantic `float` coercion:
defined on numbers, a raised error otherwise (non-numbers fail the
`max` comparison with `TypeError`; a JSON `bool` survives `min`/`max`
but is rejected by the pydantic `float` field). -/
def pyClamp (v : JValue) (lo hi : ℚ) : Option ℚ :=
  match v with
  | .num q => some (min (max q lo) hi)
  | _ => none

/-- The five allowed `persona` literals (`MELDMessage.persona`). -/
def personaNames : List String :=
  ["Strategist", "Architect", "Builder", "Explorer", "Sage"]

/-- The ten allowed behavior names (`MELDBehavior.name`). -/
def behaviorNames : List String :=
  ["guide", "analyze", "explore", "synthesize", "challenge",
   "acknowledge", "adapt", "focus", "diverge", "soothe"]

/-- The seven allowed action types (`MELDAction.type`). -/
def actionTypeNames : List String :=
  ["cognitive_shift", "state", "visual", "sequence",
   "experience_adaptation", "processing_style", "focus_adjustment"]

/-- Python membership test `v in [s1, ..., sn]` over string literals,
returning the matched string: `some s` when `v` is the string `s` and
`s` is in the list, `none` otherwise (so `x in [...] ... else d` is
`(jStrIn x l).getD d`). -/
def jStrIn (v : JValue) (allowed : List String) : Option String :=
  match v with
  | .str s => if allowed.contains s then some s else none
  | _ => none

/-- The `MELDAction` pydantic model. -/
structure MELDAction where
  type : String
  target : Option String
  value : Option String
  duration : Option ℚ
  priority : Option String
deriving DecidableEq

/-- The `MELDBehavior` pydantic model. -/
structure MELDBehavior where
  name : String
  goal : Option String
  actions : List MELDAction
deriving DecidableEq

/-- The `EmotionalState` pydantic model. -/
structure EmotionalState where
  primary : String
  secondary : Option String
  intensity : ℚ
  valence : ℚ
  arousal : ℚ
  stability : Option ℚ
deriving DecidableEq

/-- The `MELDMessage` pydantic model; `metadata` is the open
`Optional[Dict[str, Any]]` mapping. -/
structure MELDMessage where
  intent : String
  persona : String
  emotional_state : EmotionalState
  emoji : Option String
  response : String
  behavior : MELDBehavior
  confidence : ℚ
  metadata : Option (List (String × JValue))

/-- Strict validation of a required `str` field of a pydantic model:
the key must be present and hold a string. -/
def vReqStr (kvs : List (String × JValue)) (k : String) : Option String :=
  match jLook kvs k with
  | some (.str s) => some s
  | _ => none

/-- Strict validation of an `Optional[str]` field: absent or `null`
yields `None`; a string is kept; any other value fails. -/
def vOptStr (kvs : List (String × JValue)) (k : String) : Option (Option String) :=
  match jLook kvs k with
  | none => some none
  | some .null => some none
  | some (.str s) => some (some s)
  | some _ => none

/-- Strict validation of a required `float` field with `ge`/`le`
bounds (`Field(..., ge=lo, le=hi)`). -/
def vReqNumIn (kvs : List (String × JValue)) (k : String) (lo hi : ℚ) : Option ℚ :=
  match jLook kvs k with
  | some (.num q) => if lo ≤ q then if q ≤ hi then some q else none else none
  | _ => none

/-- Strict validation of an `Optional[float]` field with `ge`/`le`
bounds (`Field(None, ge=lo, le=hi)`). -/
def vOptNumIn (kvs : List (String × JValue)) (k : String) (lo hi : ℚ) :
    Option (Option ℚ) :=
  match jLook kvs k with
  | none => some none
  | some .null => some none
  | some (.num q) => if lo ≤ q then if q ≤ hi then some (some q) else none else none
  | some _ => none

/-- Strict validation of an unbounded `Optional[float]` field
(`MELDAction.duration`). -/
def vOptNum (kvs : List (String × JValue)) (k : String) : Option (Option ℚ) :=
  match jLook kvs k with
  | none => some none
  | some .null => some none
  | some (.num q) => some (some q)
  | some _ => none

/-- Strict validation of a required `List[...]` field: the value must
be a JSON array; its elements are validated separately. -/
def vArr (kvs : List (String × JValue)) (k : String) : Option (List JValue) :=
  match jLook kvs k with
  | some (.arr xs) => some xs
  | _ => none

/-- Strict validation of a `Literal[...]` field: the value must be a
string drawn from the fixed list. -/
def vLit (kvs : List (String × JValue)) (k : String) (allowed : List String) :
    Option String :=
  match jLook kvs k with
  | some (.str s) => if allowed.contains s then some s else none
  | _ => none

/-- Strict validation of the `Optional[Dict[str, Any]]` metadata field:
absent or `null` yields `None`; an object is kept as is; any other
value fails. -/
def vOptObj (kvs : List (String × JValue)) (k : String) :
    Option (Option (List (String × JValue))) :=
  match jLook kvs k with
  | none => some none
  | some .null => some none
  | some (.obj m) => some (some m)
  | some _ => none

/-- Strict validation of one `MELDAction` (pydantic model, lines 50-59):
a constrained `type` literal and four optional fields. -/
def validateAction (v : JValue) : Option MELDAction := do
  match v with
  | .obj kvs =>
    let ty ← vLit kvs "type" actionTypeNames
    let target ← vOptStr kvs "target"
    let value ← vOptStr kvs "value"
    let duration ← vOptNum kvs "duration"
    let priority ← vOptStr kvs "priority"
    some ⟨ty, target, value, duration, priority⟩
  | _ => none

/-- Strict validation of `MELDBehavior` (lines 61-68): a constrained
`name` literal, an optional `goal` and a list of actions. -/
def validateBehavior (v : JValue) : Option MELDBehavior := do
  match v with
  | .obj kvs =>
    let name ← vLit kvs "name" behaviorNames
    let goal ← vOptStr kvs "goal"
    let actionsV ← vArr kvs "actions"
    let actions ← actionsV.mapM validateAction
    some ⟨name, goal, actions⟩
  | _ => none

/-- Strict validation of `EmotionalState` (lines 70-77) with the
declared numeric ranges. -/
def validateEmotionalState (v : JValue) : Option EmotionalState := do
  match v with
  | .obj kvs =>
    let primary ← vReqStr kvs "primary"
    let secondary ← vOptStr kvs "secondary"
    let intensity ← vReqNumIn kvs "intensity" 0 1
    let valence ← vReqNumIn kvs "valence" (-1) 1
    let arousal ← vReqNumIn kvs "arousal" 0 1
    let stability ← vOptNumIn kvs "stability" 0 1
    some ⟨primary, secondary, intensity, valence, arousal, stability⟩
  | _ => none

/-- Strict validation of a complete `MELDMessage`
(`MELDMessage.model_validate_json`, line 212): `none` models a raised
`ValidationError`; extra keys are ignored, as pydantic does by
default. -/
def validateMELD (v : JValue) : Option MELDMessage := do
  match v with
  | .obj kvs =>
    let intent ← vReqStr kvs "intent"
    let persona ← vLit kvs "persona" personaNames
    let esV ← jLook kvs "emotional_state"
    let es ← validateEmotionalState esV
    let emoji ← vOptStr kvs "emoji"
    let response ← vReqStr kvs "response"
    let behV ← jLook kvs "behavior"
    let behavior ← validateBehavior behV
    let confidence ← vReqNumIn kvs "confidence" 0 1
    let metadata ← vOptObj kvs "metadata"
    some ⟨intent, persona, es, emoji, response, behavior, confidence, metadata⟩
  | _ => none

/-- Performance counters (`self.performance_stats`, lines 140-145). -/
structure PerfStats where
  successful_parses : ℕ
  fallbacks_used : ℕ
  total_requests : ℕ
  avg_confidence : ℚ
deriving DecidableEq

/-- One entry of `self.interaction_history` (lines 346-354).  The
wall-clock timestamp is environment data with no algorithmic content
and is omitted; `processing_time` is threaded as an input. -/
structure Interaction where
  user_input : String
  persona : String
  behavior : String
  confidence : ℚ
  processing_time : ℚ
  success : Bool
deriving DecidableEq

/-- The processor's mutable state (constructor, lines 135-147). -/
structure ProcState where
  interaction_history : List Interaction
  performance_stats : PerfStats
  last_processing_time : ℚ
  last_user_query : String

/-- The freshly constructed processor state. -/
def initState : ProcState :=
  { interaction_history := []
    performance_stats :=
      { successful_parses := 0, fallbacks_used := 0
        total_requests := 0, avg_confidence := 0 }
    last_processing_time := 0
    last_user_query := "" }

/-- The `EmotionalState(...)` constructor call inside
`_create_partial_meld` (lines 234-239): `esV` is the value of
`data.get("emotional_state", {})`; `secondary` and `stability` are not
passed and default to `None`. -/
def partialEmotional (esV : JValue) : Option EmotionalState := do
  let primaryV ← pyGet esV "primary" (.str "helpful")
  let primary ← pyReqStr primaryV
  let intensityV ← pyGet esV "intensity" (.num 0.7)
  let intensity ← pyClamp intensityV 0 1
  let valenceV ← pyGet esV "valence" (.num 0.5)
  let valence ← pyClamp valenceV (-1) 1
  let arousalV ← pyGet esV "arousal" (.num 0.5)
  let arousal ← pyClamp arousalV 0 1
  some
    { primary := primary, secondary := none, intensity := intensity
      valence := valence, arousal := arousal, stability := none }

/-- The `MELDBehavior(...)` constructor call inside
`_create_partial_meld` (lines 242-246): `behV` is the value of
`data.get("behavior", {})`; the actions are always the single synthetic
`state/assistance/active` action. -/
def partialBehavior (behV : JValue) : Option MELDBehavior := do
  let nameV ← pyGet behV "name" .null
  let bname := (jStrIn nameV behaviorNames).getD "acknowledge"
  let goalV ← pyGet behV "goal" (.str "Provide helpful assistance")
  let goal ← pyOptStr goalV
  some
    { name := bname, goal := goal
      actions := [⟨"state", some "assistance", some "active", none, none⟩] }

/-- Construction of the record from partial data
(`_create_partial_meld` minus its counter bump, lines 231-249): every
`data.get` and every pydantic check may raise; `none` models the raised
exception.  All exception kinds are caught uniformly by the caller
(bare `except:` at line 223), so the order in which field checks fail
is not observable. -/
def buildPartialMeld (data : JValue) (u : String) : Option MELDMessage := do
  let intentV ← pyGet data "intent" (.str "general_assistance")
  let intent ← pyReqStr intentV
  let personaV ← pyGet data "persona" .null
  let persona := (jStrIn personaV personaNames).getD "Sage"
  let esV ← pyGet data "emotional_state" (.obj [])
  let es ← partialEmotional esV
  let emojiV ← pyGet data "emoji" (.str "🤖")
  let emoji ← pyOptStr emojiV
  let responseV ← pyGet data "response"
    (.str ("I understand you\x27re asking about: " ++ u ++ ". Let me help you with that."))
  let response ← pyReqStr responseV
  let behV ← pyGet data "behavior" (.obj [])
  let behavior ← partialBehavior behV
  let confV ← pyGet data "confidence" (.num 0.6)
  let confidence ← pyClamp confV 0 1
  some
    { intent := intent
      persona := persona
      emotional_state := es
      emoji := emoji
      response := response
      behavior := behavior
      confidence := confidence
      metadata := some [("fallback_type", .str "partial_extraction"),
                        ("original_data_quality", .str "partial")] }

/-- Keyword containment: Python `w in s` substring test, on character
lists. -/
def listContainsSeq (needle : List Char) : List Char → Bool
  | [] => needle.isEmpty
  | c :: rest => needle.isPrefixOf (c :: rest) || listContainsSeq needle rest

/-- Python `any(word in s for word in ws)`. -/
def anyKeyword (ws : List String) (s : String) : Bool :=
  ws.any (fun w => listContainsSeq w.toList s.toList)

/-- Python `user_input.lower()`, as a character-wise map (the queries
classified are ASCII, where `Char.toLower` and Python agree). -/
def strToLower (s : String) : String :=
  ⟨s.toList.map Char.toLower⟩

/-- The keyword classification of `_create_intelligent_fallback`
(lines 255-275): first-match-wins over the ordered, case-insensitive
keyword rules, yielding `(intent, persona, behavior_name, emotion)`. -/
def fallbackClassification (u : String) : String × String × String × String :=
  let lu := strToLower u
  if anyKeyword ["analyze", "compare", "evaluate"] lu then
    ("analysis_request", "Strategist", "analyze", "analytical")
  else if anyKeyword ["explore", "discover", "learn"] lu then
    ("exploration_request", "Explorer", "explore", "curious")
  else if anyKeyword ["build", "create", "make"] lu then
    ("creation_request", "Builder", "guide", "practical")
  else
    ("general_assistance", "Sage", "acknowledge", "helpful")

/-- The record built by `_create_intelligent_fallback` (lines 277-303),
minus its counter bump. -/
def createIntelligentFallback (u errMsg : String) : MELDMessage :=
  let cls := fallbackClassification u
  { intent := cls.1
    persona := cls.2.1
    emotional_state :=
      { primary := cls.2.2.2, secondary := none, intensity := 0.7
        valence := 0.5, arousal := 0.4, stability := some 0.8 }
    emoji := some "🛡️"
    response := "I encountered a processing issue, but I can still help you with \x27"
      ++ u ++ "\x27. While my cognitive control system had difficulties, I\x27m functioning in safe mode and ready to assist."
    behavior :=
      { name := cls.2.2.1
        goal := some "Provide reliable assistance despite processing limitations"
        actions := [⟨"state", some "safe_mode", some "active", none, none⟩,
                    ⟨"cognitive_shift", some "fallback_processing", some "enabled", none, none⟩] }
    confidence := 0.6
    metadata := some [("fallback_type", .str "intelligent_analysis"),
                      ("error", .str errMsg),
                      ("processing_mode", .str "safe_fallback")] }

/-- Wrapper for `_create_intelligent_fallback` including its
unconditional `fallbacks_used` increment (line 253). -/
def createIntelligentFallbackS (st : PerfStats) (u errMsg : String) :
    PerfStats × MELDMessage :=
  ({ st with fallbacks_used := st.fallbacks_used + 1 },
   createIntelligentFallback u errMsg)

/-- Wrapper for `_create_partial_meld` including its unconditional
`fallbacks_used` increment (line 229), performed before the fallible
construction. -/
def createPartialMeldS (st : PerfStats) (data : JValue) (u : String) :
    PerfStats × Option MELDMessage :=
  ({ st with fallbacks_used := st.fallbacks_used + 1 },
   buildPartialMeld data u)

/-- The record built by `_create_connection_fallback` (lines 305-329);
its metadata has no `fallback_type` key. -/
def createConnectionFallback (u : String) : MELDMessage :=
  { intent := "connection_error"
    persona := "Sage"
    emotional_state :=
      { primary := "concerned", secondary := some "helpful", intensity := 0.6
        valence := -0.2, arousal := 0.3, stability := none }
    emoji := some "🔌"
    response := "I\x27m unable to connect to the local AI model (Ollama) to process your request about \x27"
      ++ u ++ "\x27. Please ensure Ollama is running with \x27ollama serve\x27 and try again."
    behavior :=
      { name := "acknowledge"
        goal := some "Inform user of connection issue and provide guidance"
        actions := [⟨"state", some "connection", some "error", none, none⟩,
                    ⟨"visual", some "status", some "warning", none, none⟩] }
    confidence := 0.95
    metadata := some [("error_type", .str "connection_failure"),
                      ("suggested_action", .str "restart_ollama")] }

/-- The raw text handed to `_parse_meld_response`, modelled at the JSON
boundary: either text that no JSON parser accepts, or the parsed
value. -/
inductive RawText where
  | malformed : RawText
  | parsed (v : JValue) : RawText

/-- Text of the pydantic `ValidationError` interpolated into
`f"JSON parsing failed: {str(e)}"` (line 225).  The message text is
environment detail no property depends on; it is abstracted to a fixed
string. -/
def validationErrorText : String := "validation error"

/-- The three-strategy parse `_parse_meld_response` (lines 208-225),
returning the updated counters and the produced record: strict
validation (counting a successful parse), else partial extraction,
else the intelligent fallback. -/
def parseMELDResponse (st : PerfStats) (raw : RawText) (u : String) :
    PerfStats × MELDMessage :=
  match raw with
  | .parsed v =>
    match validateMELD v with
    | some m => ({ st with successful_parses := st.successful_parses + 1 }, m)
    | none =>
      let (st1, r) := createPartialMeldS st v u
      match r with
      | some m => (st1, m)
      | none =>
        createIntelligentFallbackS st1 u
          ("JSON parsing failed: " ++ validationErrorText)
  | .malformed =>
    createIntelligentFallbackS st u
      ("JSON parsing failed: " ++ validationErrorText)

/-- What the environment did for one query: the connectivity probe
failed (`_check_ollama_connection` returned `False`), the HTTP request
raised (exception, timeout, bad status, given as its `str(e)` text), or
the transport returned raw message content. -/
inductive TransportOutcome where
  | unreachable : TransportOutcome
  | requestError (emsg : String) : TransportOutcome
  | responded (raw : RawText) : TransportOutcome

/-- Appending one entry to the history and recomputing the rolling
average (`_record_interaction`, lines 344-363). -/
def recordInteraction (st : ProcState) (u : String) (m : MELDMessage)
    (t : ℚ) (success : Bool) : ProcState :=
  let hist := st.interaction_history ++
    [{ user_input := u, persona := m.persona, behavior := m.behavior.name
       confidence := m.confidence, processing_time := t, success := success }]
  { interaction_history := hist
    performance_stats :=
      { st.performance_stats with
        avg_confidence := (hist.map Interaction.confidence).sum / hist.length }
    last_processing_time := t
    last_user_query := u }

/-- One full run of `process_query` (lines 149-198): bump
`total_requests`, probe connectivity, dispatch, parse with fallbacks,
record.  `t` is the measured processing time.  The connectivity-failure
path returns at line 156 without recording. -/
def processQuery (st0 : ProcState) (u : String) (t : ℚ)
    (outcome : TransportOutcome) : MELDMessage × ProcState :=
  let st :=
    { st0 with performance_stats :=
        { st0.performance_stats with
          total_requests := st0.performance_stats.total_requests + 1 } }
  match outcome with
  | .unreachable => (createConnectionFallback u, st)
  | .requestError emsg =>
    let (ps, fb) := createIntelligentFallbackS st.performance_stats u emsg
    (fb, recordInteraction { st with performance_stats := ps } u fb t false)
  | .responded raw =>
    let (ps, m) := parseMELDResponse st.performance_stats raw u
    (m, recordInteraction { st with performance_stats := ps } u m t true)

/-- One query of a session: the user input, the measured processing
time, and what the environment (probe, HTTP transport, model) did. -/
structure QueryStep where
  input : String
  time : ℚ
  outcome : TransportOutcome

/-- A whole session: `process_query` folded over a list of queries. -/
def runQueries (st : ProcState) : List QueryStep → ProcState
  | [] => st
  | s :: rest => runQueries (processQuery st s.input s.time s.outcome).2 rest

/-- Claim-side range check: both bounds, as a boolean. -/
def inRangeQ (lo hi q : ℚ) : Bool :=
  decide (lo ≤ q) && decide (q ≤ hi)

/-- Range check for an optional numeric field: an absent value
vacuously passes. -/
def optInRange (lo hi : ℚ) : Option ℚ → Bool
  | none => true
  | some s => inRangeQ lo hi s

/-- Claim-side structural validity of a produced record: every numeric
field within its declared range, persona and behavior name members of
their fixed enumerations. -/
def recordInRange (m : MELDMessage) : Bool :=
  inRangeQ 0 1 m.emotional_state.intensity &&
  inRangeQ (-1) 1 m.emotional_state.valence &&
  inRangeQ 0 1 m.emotional_state.arousal &&
  optInRange 0 1 m.emotional_state.stability &&
  inRangeQ 0 1 m.confidence &&
  personaNames.contains m.persona &&
  behaviorNames.contains m.behavior.name

/-- Lookup in a record's optional metadata mapping. -/
def mdGet (md : Option (List (String × JValue))) (k : String) : Option JValue :=
  match md with
  | none => none
  | some kvs => jLook kvs k

/-- Whether a record's metadata mapping carries the key `k`. -/
def mdHasKey (md : Option (List (String × JValue))) (k : String) : Bool :=
  (mdGet md k).isSome

/-- Whether a raw JSON value carries `metadata` as an object holding the
key `k`. -/
def rawMetaHasKey (v : JValue) (k : String) : Bool :=
  match v with
  | .obj kvs =>
    match jLook kvs "metadata" with
    | some (.obj mkvs) => (jLook mkvs k).isSome
    | _ => false
  | _ => false

/-- Arithmetic mean of a list of rationals (0 for the empty list, as
rational division by zero is 0, matching the initial 0.0 average). -/
def listMean (l : List ℚ) : ℚ := l.sum / l.length

/-- How many interaction entries one query appends: none on the
connectivity-failure path, one on every other path. -/
def recordedCount : TransportOutcome → ℕ
  | .unreachable => 0
  | .requestError _ => 1
  | .responded _ => 1

/-- Claim-side recount of the `fallbacks_used` counter for one query:
each invocation of `_create_partial_meld` or
`_create_intelligent_fallback` bumps it once, so a query whose partial
reconstruction itself raises counts twice, and a connectivity-fallback
query counts zero. -/
def stepFallbackCount (s : QueryStep) : ℕ :=
  match s.outcome with
  | .unreachable => 0
  | .requestError _ => 1
  | .responded .malformed => 1
  | .responded (.parsed v) =>
    match validateMELD v with
    | some _ => 0
    | none =>
      match buildPartialMeld v s.input with
      | some _ => 1
      | none => 2

/-- Whether a query's outcome is the strict-Validator path: the
transport returned content that validates in full. -/
def isValidatorOutcome (s : QueryStep) : Bool :=
  match s.outcome with
  | .responded (.parsed v) => (validateMELD v).isSome
  | _ => false

/-- Claim-side well-typedness of partial data, characterizing exactly
when `_create_partial_meld` does not raise: a present `intent` or
`response` must be a string, a present `emoji` a string or null, a
present `emotional_state` a dict whose present `primary` is a string
and whose present numeric fields are numbers, a present `behavior` a
dict whose present `goal` is a string or null, and a present
`confidence` a number. -/
def fieldStrOK (kvs : List (String × JValue)) (k : String) : Bool :=
  match jLook kvs k with
  | none => true
  | some (.str _) => true
  | some _ => false

/-- A present field must be a string or null (pydantic optional). -/
def fieldOptStrOK (kvs : List (String × JValue)) (k : String) : Bool :=
  match jLook kvs k with
  | none => true
  | some .null => true
  | some (.str _) => true
  | some _ => false

/-- A present field must be a number. -/
def fieldNumOK (kvs : List (String × JValue)) (k : String) : Bool :=
  match jLook kvs k with
  | none => true
  | some (.num _) => true
  | some _ => false

/-- The exact domain on which partial reconstruction succeeds. -/
def repairableData (v : JValue) : Bool :=
  match v with
  | .obj kvs =>
    fieldStrOK kvs "intent" &&
    (match jLook kvs "emotional_state" with
     | none => true
     | some (.obj es) =>
       fieldStrOK es "primary" && fieldNumOK es "intensity" &&
       fieldNumOK es "valence" && fieldNumOK es "arousal"
     | some _ => false) &&
    fieldOptStrOK kvs "emoji" &&
    fieldStrOK kvs "response" &&
    (match jLook kvs "behavior" with
     | none => true
     | some (.obj b) => fieldOptStrOK b "goal"
     | some _ => false) &&
    fieldNumOK kvs "confidence"
  | _ => false

/-- Introduction rule for the boolean range check. -/
theorem inRangeQ_intro {lo hi q : ℚ} (h1 : lo ≤ q) (h2 : q ≤ hi) :
    inRangeQ lo hi q = true := by
  simp [inRangeQ, h1, h2]

/-- A successful clamp lands inside the bounds. -/
theorem pyClamp_bounds {v : JValue} {lo hi q : ℚ} (hlh : lo ≤ hi)
    (h : pyClamp v lo hi = some q) : lo ≤ q ∧ q ≤ hi := by
  cases v <;> simp [pyClamp] at h
  subst h
  exact ⟨le_min (le_max_right _ _) hlh, min_le_right _ _⟩

/-- The keep-if-allowed-else-default pattern always lands in the
allowed list, provided the default is in it. -/
theorem jStrIn_getD_mem (v : JValue) (allowed : List String) (d : String)
    (hd : allowed.contains d = true) :
    allowed.contains ((jStrIn v allowed).getD d) = true := by
  cases v with
  | str s =>
    by_cases hs : s ∈ allowed
    · simp [jStrIn, hs]
    · simpa [jStrIn, hs] using hd
  | null => exact hd
  | bool b => exact hd
  | num q => exact hd
  | arr xs => exact hd
  | obj kvs => exact hd

/-- Whatever `partialBehavior` produces has the single synthetic
action and an allowed name. -/
theorem partialBehavior_shape {b : JValue} {bh : MELDBehavior}
    (h : partialBehavior b = some bh) :
    bh.actions = [⟨"state", some "assistance", some "active", none, none⟩] ∧
    behaviorNames.contains bh.name = true := by
  simp only [partialBehavior, Option.bind_eq_bind, Option.bind_eq_some] at h
  obtain ⟨nv, hnv, gv, hgv, g, hg, hbh⟩ := h
  cases hbh
  exact ⟨rfl, jStrIn_getD_mem _ _ _ (by decide)⟩

/-- Whatever `partialEmotional` produces has no secondary emotion, no
stability, and clamped magnitudes. -/
theorem partialEmotional_shape {e : JValue} {es : EmotionalState}
    (h : partialEmotional e = some es) :
    es.secondary = none ∧ es.stability = none ∧
    inRangeQ 0 1 es.intensity = true ∧ inRangeQ (-1) 1 es.valence = true ∧
    inRangeQ 0 1 es.arousal = true := by
  simp only [partialEmotional, Option.bind_eq_bind, Option.bind_eq_some] at h
  obtain ⟨pv, hpv, p, hp, iv, hiv, i, hi, vv, hvv, vl, hvl, av, hav, ar, har, hes⟩ := h
  obtain ⟨hi1, hi2⟩ := pyClamp_bounds (by norm_num) hi
  obtain ⟨hv1, hv2⟩ := pyClamp_bounds (by norm_num) hvl
  obtain ⟨ha1, ha2⟩ := pyClamp_bounds (by norm_num) har
  cases hes
  exact ⟨rfl, rfl, inRangeQ_intro hi1 hi2, inRangeQ_intro hv1 hv2, inRangeQ_intro ha1 ha2⟩

/-- Shape of every record partial reconstruction can produce: dropped
secondary/stability, the forced synthetic action, the fixed metadata,
and structural validity. -/
theorem buildPartialMeld_shape {data : JValue} {u : String} {m : MELDMessage}
    (h : buildPartialMeld data u = some m) :
    m.emotional_state.secondary = none ∧ m.emotional_state.stability = none ∧
    m.behavior.actions = [⟨"state", some "assistance", some "active", none, none⟩] ∧
    m.metadata = some [("fallback_type", .str "partial_extraction"),
                       ("original_data_quality", .str "partial")] ∧
    recordInRange m = true := by
  simp only [buildPartialMeld, Option.bind_eq_bind, Option.bind_eq_some] at h
  obtain ⟨iv, hiv, i, hi, pv, hpv, ev, hev, es, hes, emv, hemv, em, hem,
          rv, hrv, r, hr, bv, hbv, bh, hbh, cv, hcv, c, hc, hm⟩ := h
  obtain ⟨hsec, hstab, hint, hval, haro⟩ := partialEmotional_shape hes
  obtain ⟨hact, hname⟩ := partialBehavior_shape hbh
  obtain ⟨hc1, hc2⟩ := pyClamp_bounds (by norm_num) hc
  cases hm
  refine ⟨hsec, hstab, hact, rfl, ?_⟩
  simp only [recordInRange]
  rw [hsec, hstab] at *
  simp only [hint, hval, haro, inRangeQ_intro hc1 hc2, optInRange,
             Bool.and_true, Bool.true_and]
  simp [hname, jStrIn_getD_mem pv personaNames "Sage" (by decide)]
  exact ⟨List.mem_of_elem_eq_true (jStrIn_getD_mem pv personaNames "Sage" (by decide)),
         List.mem_of_elem_eq_true hname⟩

/-- A required bounded field validates only inside its bounds. -/
theorem vReqNumIn_bounds {kvs : List (String × JValue)} {k : String} {lo hi q : ℚ}
    (h : vReqNumIn kvs k lo hi = some q) : lo ≤ q ∧ q ≤ hi := by
  unfold vReqNumIn at h
  split at h
  · split at h
    · split at h
      · cases h; exact ⟨by assumption, by assumption⟩
      · cases h
    · cases h
  · cases h

/-- An optional bounded field validates only inside its bounds. -/
theorem vOptNumIn_bounds {kvs : List (String × JValue)} {k : String} {lo hi : ℚ}
    {o : Option ℚ} (h : vOptNumIn kvs k lo hi = some o) :
    optInRange lo hi o = true := by
  unfold vOptNumIn at h
  split at h
  · cases h; rfl
  · cases h; rfl
  · split at h
    · split at h
      · cases h; exact inRangeQ_intro (by assumption) (by assumption)
      · cases h
    · cases h
  · cases h

/-- A literal field validates only to a member of its enumeration. -/
theorem vLit_mem {kvs : List (String × JValue)} {k : String}
    {allowed : List String} {s : String} (h : vLit kvs k allowed = some s) :
    allowed.contains s = true := by
  unfold vLit at h
  split at h
  · split at h
    · cases h; assumption
    · cases h
  · cases h

/-- A strictly validated emotional state has every magnitude in
range. -/
theorem validateEmotionalState_shape {v : JValue} {es : EmotionalState}
    (h : validateEmotionalState v = some es) :
    inRangeQ 0 1 es.intensity = true ∧ inRangeQ (-1) 1 es.valence = true ∧
    inRangeQ 0 1 es.arousal = true ∧ optInRange 0 1 es.stability = true := by
  cases v <;>
      simp only [validateEmotionalState, Option.bind_eq_bind, Option.bind_eq_some] at h <;>
    try exact Option.noConfusion h
  obtain ⟨p, hp, sec, hsec, i, hi, vl, hvl, ar, har, st, hst, hes⟩ := h
  rw [Option.some_inj] at hes
  cases hes
  obtain ⟨h1, h2⟩ := vReqNumIn_bounds hi
  obtain ⟨h3, h4⟩ := vReqNumIn_bounds hvl
  obtain ⟨h5, h6⟩ := vReqNumIn_bounds har
  exact ⟨inRangeQ_intro h1 h2, inRangeQ_intro h3 h4, inRangeQ_intro h5 h6,
         vOptNumIn_bounds hst⟩

/-- A strictly validated behavior has an allowed name. -/
theorem validateBehavior_name {v : JValue} {bh : MELDBehavior}
    (h : validateBehavior v = some bh) :
    behaviorNames.contains bh.name = true := by
  cases v <;>
      simp only [validateBehavior, Option.bind_eq_bind, Option.bind_eq_some] at h <;>
    try exact Option.noConfusion h
  obtain ⟨n, hn, g, hg, xs, hxs, acts, hacts, hbh⟩ := h
  rw [Option.some_inj] at hbh
  cases hbh
  exact vLit_mem hn

/-- A strictly validated record is structurally valid, and its
metadata keys are exactly those of the raw metadata object. -/
theorem validateMELD_shape {v : JValue} {m : MELDMessage}
    (h : validateMELD v = some m) :
    recordInRange m = true ∧
    (∀ k, mdHasKey m.metadata k = rawMetaHasKey v k) := by
  cases v <;>
      simp only [validateMELD, Option.bind_eq_bind, Option.bind_eq_some] at h <;>
    try exact Option.noConfusion h
  rename_i kvs
  obtain ⟨i, hi, p, hp, ev, hev, es, hes, em, hem, r, hr, bv, hbv, bh, hbh,
          c, hc, md, hmd, hm⟩ := h
  rw [Option.some_inj] at hm
  cases hm
  obtain ⟨e1, e2, e3, e4⟩ := validateEmotionalState_shape hes
  obtain ⟨c1, c2⟩ := vReqNumIn_bounds hc
  constructor
  · simp only [recordInRange, e1, e2, e3, e4, inRangeQ_intro c1 c2,
               Bool.true_and, Bool.and_true]
    simp only [Bool.and_eq_true]
    exact ⟨vLit_mem hp, validateBehavior_name hbh⟩
  · intro k
    simp only [mdHasKey, mdGet, rawMetaHasKey]
    unfold vOptObj at hmd
    split at hmd
    · cases hmd; simp [*]
    · cases hmd; simp [*]
    · cases hmd; simp [*]
    · cases hmd

/-- The connection fallback record is structurally valid. -/
theorem connectionFallback_inRange (u : String) :
    recordInRange (createConnectionFallback u) = true := by
  simp only [recordInRange, createConnectionFallback, optInRange, Bool.and_eq_true]
  refine ⟨⟨⟨⟨⟨⟨?_, ?_⟩, ?_⟩, ?_⟩, ?_⟩, ?_⟩, ?_⟩
  · exact inRangeQ_intro (by norm_num) (by norm_num)
  · exact inRangeQ_intro (by norm_num) (by norm_num)
  · exact inRangeQ_intro (by norm_num) (by norm_num)
  · trivial
  · exact inRangeQ_intro (by norm_num) (by norm_num)
  · decide
  · decide

/-- The connection fallback metadata carries `error_type` but no
`fallback_type` key. -/
theorem connectionFallback_meta (u : String) :
    mdHasKey (createConnectionFallback u).metadata "fallback_type" = false ∧
    mdGet (createConnectionFallback u).metadata "error_type"
      = some (.str "connection_failure") := ⟨rfl, rfl⟩

/-- The intelligent fallback metadata marks its tier. -/
theorem intelligentFallback_meta (u e : String) :
    mdGet (createIntelligentFallback u e).metadata "fallback_type"
      = some (.str "intelligent_analysis") := rfl

/-- Every classification branch picks an allowed persona and behavior
name. -/
theorem fallbackClassification_mem (u : String) :
    personaNames.contains (fallbackClassification u).2.1 = true ∧
    behaviorNames.contains (fallbackClassification u).2.2.1 = true := by
  unfold fallbackClassification
  dsimp only
  repeat' split
  all_goals exact ⟨by decide, by decide⟩

/-- The intelligent fallback record is structurally valid. -/
theorem intelligentFallback_inRange (u e : String) :
    recordInRange (createIntelligentFallback u e) = true := by
  obtain ⟨h1, h2⟩ := fallbackClassification_mem u
  simp only [recordInRange, createIntelligentFallback, optInRange, Bool.and_eq_true]
  exact ⟨⟨⟨⟨⟨⟨inRangeQ_intro (by norm_num) (by norm_num),
    inRangeQ_intro (by norm_num) (by norm_num)⟩,
    inRangeQ_intro (by norm_num) (by norm_num)⟩,
    inRangeQ_intro (by norm_num) (by norm_num)⟩,
    inRangeQ_intro (by norm_num) (by norm_num)⟩, h1⟩, h2⟩

/-- Whatever tier of the three-strategy parse produces the record, it
is structurally valid. -/
theorem parseMELD_inRange (st : PerfStats) (raw : RawText) (u : String) :
    recordInRange (parseMELDResponse st raw u).2 = true := by
  cases raw with
  | malformed =>
    simp only [parseMELDResponse, createIntelligentFallbackS]
    exact intelligentFallback_inRange u _
  | parsed v =>
    simp only [parseMELDResponse]
    cases hv : validateMELD v with
    | some m => exact (validateMELD_shape hv).1
    | none =>
      simp only [createPartialMeldS]
      cases hp : buildPartialMeld v u with
      | some m =>
        simp only []
        exact (buildPartialMeld_shape hp).2.2.2.2
      | none =>
        simp only [createIntelligentFallbackS]
        exact intelligentFallback_inRange u _

/-- C2: for every raw input (valid, partially valid, unparsable) and
every transport outcome, the record `process_query` returns has
intensity in [0,1], valence in [-1,1], arousal in [0,1], stability
(when present) in [0,1], confidence in [0,1], persona in the
five-element enumeration and behavior name in the ten-element
enumeration (`recordInRange`). -/
theorem c2_pipeline_record_in_range (st : ProcState) (u : String) (t : ℚ)
    (o : TransportOutcome) :
    recordInRange (processQuery st u t o).1 = true := by
  cases o with
  | unreachable => exact connectionFallback_inRange u
  | requestError e =>
    simp only [processQuery, createIntelligentFallbackS]
    exact intelligentFallback_inRange u e
  | responded raw =>
    simp only [processQuery]
    exact parseMELD_inRange _ raw u

/-- C1 (amended): every `process_query` run returns exactly one record
(by the type of `processQuery`) and appends exactly one
`InteractionEntry` on every path except the connectivity-fallback
path, which returns its record without recording anything
(`recordedCount .unreachable = 0`). -/
theorem c1_amended_entries_per_path (st : ProcState) (u : String) (t : ℚ)
    (o : TransportOutcome) :
    (processQuery st u t o).2.interaction_history.length
      = st.interaction_history.length + recordedCount o := by
  cases o with
  | unreachable => simp [processQuery, recordedCount]
  | requestError e =>
    simp [processQuery, createIntelligentFallbackS, recordInteraction, recordedCount]
  | responded raw =>
    simp [processQuery, recordInteraction, recordedCount]

/-- C3 (amended): the recorded success flag is `True` exactly when the
transport responded and `_parse_meld_response` ran - whichever of the
three tiers (strict validation, partial reconstruction, heuristic
synthesis) produced the record - and `False` only on the
transport-exception path; a connectivity-failure query records no
entry at all. -/
theorem c3_amended_success_iff_transport_responded (st : ProcState) (u : String) (t : ℚ)
    (raw : RawText) (e : String) :
    ((processQuery st u t (.responded raw)).2.interaction_history.getLast?.map
        Interaction.success = some true) ∧
    ((processQuery st u t (.requestError e)).2.interaction_history.getLast?.map
        Interaction.success = some false) ∧
    (processQuery st u t .unreachable).2.interaction_history
      = st.interaction_history := by
  refine ⟨?_, ?_, rfl⟩
  · simp [processQuery, recordInteraction, List.getLast?_concat]
  · simp [processQuery, createIntelligentFallbackS, recordInteraction,
          List.getLast?_concat]

/-- The fallback counter moves by exactly the per-step recount. -/
theorem processQuery_fallbacks (st : ProcState) (u : String) (t : ℚ)
    (o : TransportOutcome) :
    (processQuery st u t o).2.performance_stats.fallbacks_used
      = st.performance_stats.fallbacks_used + stepFallbackCount ⟨u, t, o⟩ := by
  cases o with
  | unreachable => simp [processQuery, stepFallbackCount]
  | requestError e =>
    simp [processQuery, createIntelligentFallbackS, recordInteraction,
          stepFallbackCount]
  | responded raw =>
    cases raw with
    | malformed =>
      simp [processQuery, parseMELDResponse, createIntelligentFallbackS,
            recordInteraction, stepFallbackCount]
    | parsed v =>
      simp only [processQuery, parseMELDResponse, stepFallbackCount]
      cases hv : validateMELD v with
      | some m => simp [recordInteraction]
      | none =>
        simp only [createPartialMeldS]
        cases hp : buildPartialMeld v u with
        | some m => simp [recordInteraction]
        | none =>
          simp [createIntelligentFallbackS, recordInteraction]

/-- The recomputed rolling average stays the arithmetic mean of all
recorded confidences. -/
theorem processQuery_avg (st : ProcState) (u : String) (t : ℚ)
    (o : TransportOutcome)
    (hinv : st.performance_stats.avg_confidence
      = listMean (st.interaction_history.map Interaction.confidence)) :
    (processQuery st u t o).2.performance_stats.avg_confidence
      = listMean ((processQuery st u t o).2.interaction_history.map
          Interaction.confidence) := by
  cases o with
  | unreachable => simpa [processQuery] using hinv
  | requestError e =>
    simp [processQuery, createIntelligentFallbackS, recordInteraction, listMean]
  | responded raw =>
    simp [processQuery, recordInteraction, listMean]

/-- Over a whole session: the average stays the mean, and the fallback
counter accumulates the per-step recount. -/
theorem runQueries_avg_fallbacks (steps : List QueryStep) :
    ∀ st : ProcState,
    st.performance_stats.avg_confidence
      = listMean (st.interaction_history.map Interaction.confidence) →
    (runQueries st steps).performance_stats.avg_confidence
      = listMean ((runQueries st steps).interaction_history.map
          Interaction.confidence) ∧
    (runQueries st steps).performance_stats.fallbacks_used
      = st.performance_stats.fallbacks_used + (steps.map stepFallbackCount).sum := by
  induction steps with
  | nil => intro st h; exact ⟨h, by simp [runQueries]⟩
  | cons s rest ih =>
    obtain ⟨ui, ti, oi⟩ := s
    intro st h
    simp only [runQueries]
    obtain ⟨h1, h2⟩ := ih _ (processQuery_avg st ui ti oi h)
    refine ⟨h1, ?_⟩
    rw [h2, processQuery_fallbacks]
    simp [List.sum_cons]
    omega

/-- A well-typed optional string field never fails the required-string
check applied to the fetched-or-default value. -/
theorem fieldStrOK_pyReqStr {kvs : List (String × JValue)} {k : String}
    (h : fieldStrOK kvs k = true) (d : String) :
    ∃ s, pyReqStr ((jLook kvs k).getD (.str d)) = some s := by
  unfold fieldStrOK at h
  split at h
  · exact ⟨d, by simp [*, pyReqStr]⟩
  · rename_i s heq; exact ⟨s, by simp [heq, pyReqStr]⟩
  · cases h

/-- A well-typed string-or-null field never fails the optional-string
check applied to the fetched-or-default value. -/
theorem fieldOptStrOK_pyOptStr {kvs : List (String × JValue)} {k : String}
    (h : fieldOptStrOK kvs k = true) (d : String) :
    ∃ o, pyOptStr ((jLook kvs k).getD (.str d)) = some o := by
  unfold fieldOptStrOK at h
  split at h
  · exact ⟨some d, by simp [*, pyOptStr]⟩
  · rename_i heq; exact ⟨none, by simp [heq, pyOptStr]⟩
  · rename_i s heq; exact ⟨some s, by simp [heq, pyOptStr]⟩
  · cases h

/-- A well-typed numeric field never fails the clamp applied to the
fetched-or-default value. -/
theorem fieldNumOK_pyClamp {kvs : List (String × JValue)} {k : String}
    (h : fieldNumOK kvs k = true) (d lo hi : ℚ) :
    ∃ q, pyClamp ((jLook kvs k).getD (.num d)) lo hi = some q := by
  unfold fieldNumOK at h
  split at h
  · exact ⟨min (max d lo) hi, by simp [*, pyClamp]⟩
  · rename_i q heq; exact ⟨min (max q lo) hi, by simp [heq, pyClamp]⟩
  · cases h

/-- On a well-typed emotional-state dict, the partial emotional-state
construction succeeds. -/
theorem partialEmotional_isSome {es : List (String × JValue)}
    (h1 : fieldStrOK es "primary" = true) (h2 : fieldNumOK es "intensity" = true)
    (h3 : fieldNumOK es "valence" = true) (h4 : fieldNumOK es "arousal" = true) :
    (partialEmotional (.obj es)).isSome = true := by
  obtain ⟨p, hp⟩ := fieldStrOK_pyReqStr h1 "helpful"
  obtain ⟨i, hi⟩ := fieldNumOK_pyClamp h2 0.7 0 1
  obtain ⟨vl, hv⟩ := fieldNumOK_pyClamp h3 0.5 (-1) 1
  obtain ⟨ar, ha⟩ := fieldNumOK_pyClamp h4 0.5 0 1
  simp only [partialEmotional, pyGet, Option.bind_eq_bind, Option.some_bind,
             hp, hi, hv, ha, Option.isSome_some]

/-- On a well-typed behavior dict, the partial behavior construction
succeeds. -/
theorem partialBehavior_isSome {b : List (String × JValue)}
    (h : fieldOptStrOK b "goal" = true) :
    (partialBehavior (.obj b)).isSome = true := by
  obtain ⟨g, hg⟩ := fieldOptStrOK_pyOptStr h "Provide helpful assistance"
  simp only [partialBehavior, pyGet, Option.bind_eq_bind, Option.some_bind,
             hg, Option.isSome_some]

/-- Sufficiency half of the exact success domain: on every well-typed
dict, partial reconstruction succeeds. -/
theorem buildPartialMeld_isSome_of_repairable (v : JValue) (u : String)
    (h : repairableData v = true) :
    (buildPartialMeld v u).isSome = true := by
  cases v with
  | null => simp [repairableData] at h
  | bool b => simp [repairableData] at h
  | num q => simp [repairableData] at h
  | str s => simp [repairableData] at h
  | arr xs => simp [repairableData] at h
  | obj kvs =>
  simp only [repairableData, Bool.and_eq_true] at h
  obtain ⟨⟨⟨⟨⟨hIntent, hEs⟩, hEmoji⟩, hResp⟩, hBeh⟩, hConf⟩ := h
  obtain ⟨i, hi⟩ := fieldStrOK_pyReqStr hIntent "general_assistance"
  obtain ⟨em, hem⟩ := fieldOptStrOK_pyOptStr hEmoji "🤖"
  obtain ⟨r, hr⟩ := fieldStrOK_pyReqStr hResp
    ("I understand you\x27re asking about: " ++ u ++ ". Let me help you with that.")
  obtain ⟨c, hc⟩ := fieldNumOK_pyClamp hConf 0.6 0 1
  have hesS : (partialEmotional ((jLook kvs "emotional_state").getD (.obj []))).isSome
      = true := by
    revert hEs
    cases hL : jLook kvs "emotional_state" with
    | none => intro _; rfl
    | some w =>
      cases w with
      | obj es =>
        intro hEs
        simp only [Bool.and_eq_true] at hEs
        obtain ⟨⟨⟨e1, e2⟩, e3⟩, e4⟩ := hEs
        simp only [Option.getD_some]
        exact partialEmotional_isSome e1 e2 e3 e4
      | null => intro hEs; exact Bool.noConfusion hEs
      | bool x => intro hEs; exact Bool.noConfusion hEs
      | num x => intro hEs; exact Bool.noConfusion hEs
      | str x => intro hEs; exact Bool.noConfusion hEs
      | arr x => intro hEs; exact Bool.noConfusion hEs
  have hbS : (partialBehavior ((jLook kvs "behavior").getD (.obj []))).isSome
      = true := by
    revert hBeh
    cases hL : jLook kvs "behavior" with
    | none => intro _; rfl
    | some w =>
      cases w with
      | obj b =>
        intro hBeh
        simp only [Option.getD_some]
        exact partialBehavior_isSome hBeh
      | null => intro hBeh; exact Bool.noConfusion hBeh
      | bool x => intro hBeh; exact Bool.noConfusion hBeh
      | num x => intro hBeh; exact Bool.noConfusion hBeh
      | str x => intro hBeh; exact Bool.noConfusion hBeh
      | arr x => intro hBeh; exact Bool.noConfusion hBeh
  rw [Option.isSome_iff_exists] at hesS hbS
  obtain ⟨es, hes⟩ := hesS
  obtain ⟨bh, hbh⟩ := hbS
  simp only [buildPartialMeld, pyGet, Option.bind_eq_bind, Option.some_bind,
             hi, hem, hr, hc, hes, hbh, Option.isSome_some]

/-- C1 (counterexample): when the connectivity probe fails, the
pipeline returns the connection-fallback record but appends no
interaction entry, refuting "exactly one InteractionEntry is appended
... on every path including the connectivity-fallback path". -/
theorem c1_cex_unreachable_records_nothing :
    (processQuery initState "hello" 0 .unreachable).1.intent = "connection_error" ∧
    (processQuery initState "hello" 0 .unreachable).2.interaction_history.length
      ≠ initState.interaction_history.length + 1 := by
  exact ⟨rfl, by decide⟩

/-- C3 (counterexample): raw content that is valid JSON but
schema-invalid (the empty object) is resolved by partial
reconstruction - no successful strict parse, `fallback_type =
partial_extraction` - yet its interaction entry is recorded with
`success = true`, refuting "success iff Validator path". -/
theorem c3_cex_partial_path_recorded_success :
    ((processQuery initState "hi" 0 (.responded (.parsed (.obj [])))).2.interaction_history.map
        Interaction.success = [true]) ∧
    (processQuery initState "hi" 0 (.responded (.parsed (.obj [])))).2.performance_stats.successful_parses
      = 0 ∧
    mdGet (processQuery initState "hi" 0 (.responded (.parsed (.obj [])))).1.metadata
        "fallback_type" = some (.str "partial_extraction") :=
  ⟨rfl, rfl, rfl⟩

/-- C4 (counterexample): the record produced on the
connectivity-failure error path has a metadata mapping, but it carries
no `fallback_type` key, refuting "every record produced by an error
path carries ... fallback_type". -/
theorem c4_cex_connection_fallback_lacks_marker :
    mdHasKey (processQuery initState "q" 0 .unreachable).1.metadata "fallback_type"
      = false ∧
    (processQuery initState "q" 0 .unreachable).1.intent = "connection_error" ∧
    ((processQuery initState "q" 0 .unreachable).1.metadata).isSome = true :=
  ⟨rfl, rfl, rfl⟩

/-- C5 (counterexample): after one connectivity-failure query - a
non-Validator outcome - `fallbacks_used` is still 0 while the
non-Validator query count is 1. -/
theorem c5_cex_fallbacks_vs_nonvalidator :
    (runQueries initState [⟨"hi", 0, .unreachable⟩]).performance_stats.fallbacks_used
      ≠ (List.filter (fun s => ! isValidatorOutcome s) [⟨"hi", 0, .unreachable⟩]).length := by
  decide

/-- C6 (counterexample): a key-value structure whose
`emotional_state` is a string makes `_create_partial_meld` raise
(`.get` on a `str`), refuting "it has no failure mode for any input";
the controller absorbs the failure into heuristic synthesis. -/
theorem c6_cex_partial_failure_mode :
    buildPartialMeld (.obj [("emotional_state", .str "busy")]) "q" = none ∧
    mdGet (processQuery initState "q" 0
        (.responded (.parsed (.obj [("emotional_state", .str "busy")])))).1.metadata
      "fallback_type" = some (.str "intelligent_analysis") :=
  ⟨rfl, rfl⟩

/-- A fully schema-valid raw value that itself carries
`metadata.fallback_type`. -/
def validInputWithMarker : JValue := .obj [
  ("intent", .str "seek_clarity"),
  ("persona", .str "Sage"),
  ("emotional_state", .obj [("primary", .str "calm"), ("intensity", .num 1),
    ("valence", .num 0), ("arousal", .num 1)]),
  ("response", .str "ok"),
  ("behavior", .obj [("name", .str "guide"),
    ("actions", .arr [.obj [("type", .str "state")]])]),
  ("confidence", .num 1),
  ("metadata", .obj [("fallback_type", .str "smuggled")])]

/-- C9 (counterexample): a fully schema-valid raw text that itself
carries `metadata.fallback_type` is returned unchanged by the
Validator path (successful-parse counter incremented), so the returned
record's `fallback_type` is present, refuting "metadata.fallback_type
is absent". -/
theorem c9_cex_fallback_type_passthrough :
    (validateMELD validInputWithMarker).isSome = true ∧
    mdHasKey (processQuery initState "q" 0
        (.responded (.parsed validInputWithMarker))).1.metadata "fallback_type"
      = true ∧
    (processQuery initState "q" 0
        (.responded (.parsed validInputWithMarker))).2.performance_stats.successful_parses
      = 1 :=
  ⟨rfl, rfl, rfl⟩

/-- C9 (amended): if the raw text strictly validates, the pipeline
returns the parsed record itself, and therefore
`metadata.fallback_type` is absent whenever the raw input did not
itself carry that key - the Validator path adds no fallback marker. -/
theorem c9_amended_validator_identity (st : ProcState) (u : String) (t : ℚ)
    (v : JValue) (m : MELDMessage) (h : validateMELD v = some m) :
    (processQuery st u t (.responded (.parsed v))).1 = m ∧
    (rawMetaHasKey v "fallback_type" = false →
      mdHasKey m.metadata "fallback_type" = false) := by
  constructor
  · simp [processQuery, parseMELDResponse, h]
  · intro hraw
    rw [(validateMELD_shape h).2 "fallback_type"]
    exact hraw

/-- C4 (amended): `process_query` never raises (the model's
`processQuery` is total); records produced by the transport-exception,
unparsable-payload and schema-violation error paths all carry
`metadata.fallback_type`; the connectivity-failure record instead
carries `metadata.error_type = "connection_failure"` and no
`fallback_type` key (see the counterexample). -/
theorem c4_amended_error_markers (st : ProcState) (u : String) (t : ℚ)
    (e : String) (v : JValue) :
    mdGet (processQuery st u t (.requestError e)).1.metadata "fallback_type"
      = some (.str "intelligent_analysis") ∧
    mdGet (processQuery st u t (.responded .malformed)).1.metadata "fallback_type"
      = some (.str "intelligent_analysis") ∧
    (validateMELD v = none →
      mdHasKey (processQuery st u t (.responded (.parsed v))).1.metadata
        "fallback_type" = true) ∧
    mdGet (processQuery st u t .unreachable).1.metadata "error_type"
      = some (.str "connection_failure") := by
  refine ⟨?_, ?_, ?_, ?_⟩
  · simp only [processQuery, createIntelligentFallbackS]
    exact intelligentFallback_meta u e
  · simp only [processQuery, parseMELDResponse, createIntelligentFallbackS]
    exact intelligentFallback_meta u _
  · intro hv
    simp only [processQuery, parseMELDResponse, hv, createPartialMeldS]
    cases hp : buildPartialMeld v u with
    | some m =>
      have hmeta := (buildPartialMeld_shape hp).2.2.2.1
      simp only [mdHasKey, mdGet, hmeta]
      rfl
    | none =>
      simp only [createIntelligentFallbackS, mdHasKey]
      rw [intelligentFallback_meta u _]
      rfl
  · exact (connectionFallback_meta u).2

/-- Witness for C4 (amended) at the concrete schema-invalid input
`{}`. -/
theorem c4_amended_error_markers_witness :
    mdHasKey (processQuery initState "q" 0
        (.responded (.parsed (.obj [])))).1.metadata "fallback_type" = true :=
  (c4_amended_error_markers initState "q" 0 "boom" (.obj [])).2.2.1 rfl

/-- C7: every record produced by partial reconstruction has exactly
one synthetic action `type=state, target=assistance, value=active`
(source-provided actions are never read) and
`metadata.fallback_type = "partial_extraction"`. -/
theorem c7_partial_forced_action_and_marker (v : JValue) (u : String)
    (m : MELDMessage) (h : buildPartialMeld v u = some m) :
    m.behavior.actions = [⟨"state", some "assistance", some "active", none, none⟩] ∧
    mdGet m.metadata "fallback_type" = some (.str "partial_extraction") := by
  obtain ⟨-, -, hact, hmeta, -⟩ := buildPartialMeld_shape h
  refine ⟨hact, ?_⟩
  rw [hmeta]
  rfl

/-- Partial data that itself supplies actions (discarded by the tier). -/
def sourceWithActions : JValue := .obj [
  ("behavior", .obj [("name", .str "analyze"),
    ("actions", .arr [.obj [("type", .str "visual"), ("target", .str "everything")]])])]

/-- Witness for C7 at concrete partial data that supplies its own
actions; they are discarded for the synthetic one. -/
theorem c7_partial_forced_action_and_marker_witness :
    (buildPartialMeld sourceWithActions "q").map
        (fun m => m.behavior.actions)
      = some [⟨"state", some "assistance", some "active", none, none⟩] ∧
    (buildPartialMeld sourceWithActions "q").map
        (fun m => mdGet m.metadata "fallback_type")
      = some (some (.str "partial_extraction")) := by
  cases hm : buildPartialMeld sourceWithActions "q" with
  | none => exact Option.noConfusion hm
  | some m =>
    obtain ⟨h1, h2⟩ := c7_partial_forced_action_and_marker sourceWithActions "q" m hm
    simp [h1, h2]

/-- C10: every record produced by partial reconstruction has
`emotional_state.secondary` and `emotional_state.stability` absent:
the `EmotionalState(...)` call passes only primary, intensity, valence
and arousal. -/
theorem c10_partial_drops_secondary_stability (v : JValue) (u : String)
    (m : MELDMessage) (h : buildPartialMeld v u = some m) :
    m.emotional_state.secondary = none ∧ m.emotional_state.stability = none :=
  ⟨(buildPartialMeld_shape h).1, (buildPartialMeld_shape h).2.1⟩

/-- Partial data that supplies valid secondary and stability values. -/
def sourceWithSecondary : JValue := .obj [
  ("emotional_state", .obj [("primary", .str "joyful"), ("secondary", .str "calm"),
    ("stability", .num 1), ("intensity", .num 1)])]

/-- Witness for C10 at concrete partial data that supplies valid
secondary and stability values; both are dropped. -/
theorem c10_partial_drops_secondary_stability_witness :
    (buildPartialMeld sourceWithSecondary "q").map
        (fun m => m.emotional_state.secondary) = some none ∧
    (buildPartialMeld sourceWithSecondary "q").map
        (fun m => m.emotional_state.stability) = some none := by
  cases hm : buildPartialMeld sourceWithSecondary "q" with
  | none => exact Option.noConfusion hm
  | some m =>
    obtain ⟨h1, h2⟩ := c10_partial_drops_secondary_stability sourceWithSecondary "q" m hm
    simp [h1, h2]

/-- C5 (amended): after any session, `avg_confidence` equals the
arithmetic mean of the recorded confidences c1..cN (confirmed part),
while `fallbacks_used` equals the number of fallback-constructor
invocations (`stepFallbackCount` per query: 0 for a Validator-path or
connectivity-fallback query, 1 for a transport-exception, unparsable
payload or successful partial reconstruction, 2 when partial
reconstruction itself raises) - not the number of non-Validator
queries. -/
theorem c5_amended_stats_recount (steps : List QueryStep) :
    (runQueries initState steps).performance_stats.avg_confidence
      = listMean ((runQueries initState steps).interaction_history.map
          Interaction.confidence) ∧
    (runQueries initState steps).performance_stats.fallbacks_used
      = (steps.map stepFallbackCount).sum := by
  have h := runQueries_avg_fallbacks steps initState (by simp [initState, listMean])
  simpa [initState] using h

/-- C8: the heuristic synthesizer classifies by first-match-wins over
the ordered case-insensitive keyword rules - analyze/compare/evaluate,
then explore/discover/learn, then build/create/make, else the default
- with fixed confidence 0.6; the witness instantiates it on "Please
analyze and compare these two designs", yielding persona=Strategist
and behavior=analyze. -/
theorem c8_first_match_classification (u e : String) :
    ((anyKeyword ["analyze", "compare", "evaluate"] (strToLower u) = true →
       (createIntelligentFallback u e).persona = "Strategist" ∧
       (createIntelligentFallback u e).behavior.name = "analyze" ∧
       (createIntelligentFallback u e).intent = "analysis_request" ∧
       (createIntelligentFallback u e).emotional_state.primary = "analytical") ∧
     (anyKeyword ["analyze", "compare", "evaluate"] (strToLower u) = false →
      anyKeyword ["explore", "discover", "learn"] (strToLower u) = true →
       (createIntelligentFallback u e).persona = "Explorer" ∧
       (createIntelligentFallback u e).behavior.name = "explore" ∧
       (createIntelligentFallback u e).intent = "exploration_request" ∧
       (createIntelligentFallback u e).emotional_state.primary = "curious") ∧
     (anyKeyword ["analyze", "compare", "evaluate"] (strToLower u) = false →
      anyKeyword ["explore", "discover", "learn"] (strToLower u) = false →
      anyKeyword ["build", "create", "make"] (strToLower u) = true →
       (createIntelligentFallback u e).persona = "Builder" ∧
       (createIntelligentFallback u e).behavior.name = "guide" ∧
       (createIntelligentFallback u e).intent = "creation_request" ∧
       (createIntelligentFallback u e).emotional_state.primary = "practical") ∧
     (anyKeyword ["analyze", "compare", "evaluate"] (strToLower u) = false →
      anyKeyword ["explore", "discover", "learn"] (strToLower u) = false →
      anyKeyword ["build", "create", "make"] (strToLower u) = false →
       (createIntelligentFallback u e).persona = "Sage" ∧
       (createIntelligentFallback u e).behavior.name = "acknowledge" ∧
       (createIntelligentFallback u e).intent = "general_assistance" ∧
       (createIntelligentFallback u e).emotional_state.primary = "helpful")) ∧
    (createIntelligentFallback u e).confidence = 0.6 := by
  refine ⟨⟨?_, ?_, ?_, ?_⟩, rfl⟩
  · intro h1
    simp [createIntelligentFallback, fallbackClassification, h1]
  · intro h1 h2
    simp [createIntelligentFallback, fallbackClassification, h1, h2]
  · intro h1 h2 h3
    simp [createIntelligentFallback, fallbackClassification, h1, h2, h3]
  · intro h1 h2 h3
    simp [createIntelligentFallback, fallbackClassification, h1, h2, h3]

/-- Witness for C8: the concrete query of the claim contains
"analyze", so rule 1 fires. -/
theorem c8_first_match_classification_witness :
    anyKeyword ["analyze", "compare", "evaluate"]
      (strToLower "Please analyze and compare these two designs") = true ∧
    (createIntelligentFallback "Please analyze and compare these two designs"
        "err").persona = "Strategist" ∧
    (createIntelligentFallback "Please analyze and compare these two designs"
        "err").behavior.name = "analyze" ∧
    (createIntelligentFallback "Please analyze and compare these two designs"
        "err").confidence = 0.6 := by
  obtain ⟨⟨h1, -, -, -⟩, hc⟩ :=
    c8_first_match_classification "Please analyze and compare these two designs" "err"
  exact ⟨by decide, (h1 (by decide)).1, (h1 (by decide)).2.1, hc⟩

/-- A fully schema-valid raw value whose metadata lacks
`fallback_type`. -/
def validInputPlain : JValue := .obj [
  ("intent", .str "seek_clarity"),
  ("persona", .str "Strategist"),
  ("emotional_state", .obj [("primary", .str "focused"), ("intensity", .num 1),
    ("valence", .num 0), ("arousal", .num 1), ("stability", .num 1)]),
  ("emoji", .str "🎯"),
  ("response", .str "Here is a focused answer."),
  ("behavior", .obj [("name", .str "analyze"), ("goal", .str "break it down"),
    ("actions", .arr [.obj [("type", .str "cognitive_shift"),
      ("target", .str "thinking_mode"), ("value", .str "analytical")]])]),
  ("confidence", .num 1),
  ("metadata", .obj [("processing_notes", .str "none")])]

/-- Witness for C9 (amended) at a concrete strictly-valid input whose
metadata lacks `fallback_type`: the returned record lacks it too. -/
theorem c9_amended_validator_identity_witness :
    (validateMELD validInputPlain).isSome = true ∧
    mdHasKey (processQuery initState "q" 0
        (.responded (.parsed validInputPlain))).1.metadata "fallback_type"
      = false := by
  constructor
  · rfl
  · cases hm : validateMELD validInputPlain with
    | none => exact Option.noConfusion hm
    | some m =>
      obtain ⟨he, hf⟩ :=
        c9_amended_validator_identity initState "q" 0 validInputPlain m hm
      rw [he]
      exact hf rfl

/-- A successful `.get` means the receiver was a dict and the result
is the fetched-or-default value. -/
theorem pyGet_some_obj {v : JValue} {k : String} {d w : JValue}
    (h : pyGet v k d = some w) :
    ∃ kvs, v = .obj kvs ∧ w = (jLook kvs k).getD d := by
  cases v <;> simp [pyGet] at h
  rename_i kvs
  exact ⟨kvs, rfl, h.symm⟩

/-- The required-string check succeeds only on strings. -/
theorem pyReqStr_some_str {w : JValue} {s : String} (h : pyReqStr w = some s) :
    w = .str s := by
  cases w <;> simp_all [pyReqStr]

/-- The optional-string check succeeds only on null or a string. -/
theorem pyOptStr_some_shape {w : JValue} {o : Option String}
    (h : pyOptStr w = some o) :
    w = .null ∨ ∃ s, w = .str s := by
  cases w <;> simp_all [pyOptStr]

/-- The clamp succeeds only on numbers. -/
theorem pyClamp_some_num {w : JValue} {lo hi q : ℚ}
    (h : pyClamp w lo hi = some q) :
    ∃ x, w = .num x := by
  cases w <;> simp_all [pyClamp]

/-- Converse field lemma: a successful required-string check on the
fetched-or-default value means the field was absent or a string. -/
theorem fieldStrOK_of_pyReqStr {kvs : List (String × JValue)} {k d s : String}
    (h : pyReqStr ((jLook kvs k).getD (.str d)) = some s) :
    fieldStrOK kvs k = true := by
  unfold fieldStrOK
  cases hL : jLook kvs k with
  | none => rfl
  | some w =>
    rw [hL, Option.getD_some] at h
    rw [pyReqStr_some_str h]

/-- Converse field lemma: a successful optional-string check means the
field was absent, null or a string. -/
theorem fieldOptStrOK_of_pyOptStr {kvs : List (String × JValue)} {k d : String}
    {o : Option String}
    (h : pyOptStr ((jLook kvs k).getD (.str d)) = some o) :
    fieldOptStrOK kvs k = true := by
  unfold fieldOptStrOK
  cases hL : jLook kvs k with
  | none => rfl
  | some w =>
    rw [hL, Option.getD_some] at h
    rcases pyOptStr_some_shape h with hw | ⟨s, hw⟩ <;> rw [hw]

/-- Converse field lemma: a successful clamp means the field was
absent or a number. -/
theorem fieldNumOK_of_pyClamp {kvs : List (String × JValue)} {k : String}
    {d lo hi q : ℚ}
    (h : pyClamp ((jLook kvs k).getD (.num d)) lo hi = some q) :
    fieldNumOK kvs k = true := by
  unfold fieldNumOK
  cases hL : jLook kvs k with
  | none => rfl
  | some w =>
    rw [hL, Option.getD_some] at h
    obtain ⟨x, hw⟩ := pyClamp_some_num h
    rw [hw]

/-- A successful partial emotional-state construction forces its input
to be a dict with well-typed fields. -/
theorem partialEmotional_some_typed {w : JValue} {es : EmotionalState}
    (h : partialEmotional w = some es) :
    ∃ kvs, w = .obj kvs ∧
      (fieldStrOK kvs "primary" && fieldNumOK kvs "intensity" &&
       fieldNumOK kvs "valence" && fieldNumOK kvs "arousal") = true := by
  simp only [partialEmotional, Option.bind_eq_bind, Option.bind_eq_some] at h
  obtain ⟨pv, hpv, p, hp, iv, hiv, i, hi, vv, hvv, vl, hvl, av, hav, ar, har, -⟩ := h
  obtain ⟨kvs, rfl, hpvE⟩ := pyGet_some_obj hpv
  simp only [pyGet, Option.some_inj] at hiv hvv hav
  subst hpvE hiv hvv hav
  refine ⟨kvs, rfl, ?_⟩
  simp only [Bool.and_eq_true]
  exact ⟨⟨⟨fieldStrOK_of_pyReqStr hp, fieldNumOK_of_pyClamp hi⟩,
          fieldNumOK_of_pyClamp hvl⟩, fieldNumOK_of_pyClamp har⟩

/-- A successful partial behavior construction forces its input to be
a dict with a well-typed goal. -/
theorem partialBehavior_some_typed {w : JValue} {bh : MELDBehavior}
    (h : partialBehavior w = some bh) :
    ∃ kvs, w = .obj kvs ∧ fieldOptStrOK kvs "goal" = true := by
  simp only [partialBehavior, Option.bind_eq_bind, Option.bind_eq_some] at h
  obtain ⟨nv, hnv, gv, hgv, g, hg, -⟩ := h
  obtain ⟨kvs, rfl, hnvE⟩ := pyGet_some_obj hnv
  simp only [pyGet, Option.some_inj] at hgv
  subst hgv
  exact ⟨kvs, rfl, fieldOptStrOK_of_pyOptStr hg⟩

/-- Necessity half of the exact success domain: whenever partial
reconstruction succeeds, the input was a well-typed dict. -/
theorem repairable_of_buildPartialMeld_some {v : JValue} {u : String}
    {m : MELDMessage} (h : buildPartialMeld v u = some m) :
    repairableData v = true := by
  simp only [buildPartialMeld, Option.bind_eq_bind, Option.bind_eq_some] at h
  obtain ⟨iv, hiv, i, hi, pv, hpv, ev, hev, es, hes, emv, hemv, em, hem,
          rv, hrv, r, hr, bv, hbv, bh, hbh, cv, hcv, c, hc, -⟩ := h
  obtain ⟨kvs, rfl, hivE⟩ := pyGet_some_obj hiv
  simp only [pyGet, Option.some_inj] at hev hemv hrv hbv hcv
  subst hivE hev hemv hrv hbv hcv
  simp only [repairableData, Bool.and_eq_true]
  refine ⟨⟨⟨⟨⟨fieldStrOK_of_pyReqStr hi, ?_⟩, fieldOptStrOK_of_pyOptStr hem⟩,
    fieldStrOK_of_pyReqStr hr⟩, ?_⟩, fieldNumOK_of_pyClamp hc⟩
  · cases hL : jLook kvs "emotional_state" with
    | none => rfl
    | some w =>
      rw [hL, Option.getD_some] at hes
      obtain ⟨ekvs, rfl, hok⟩ := partialEmotional_some_typed hes
      simpa [Bool.and_eq_true] using hok
  · cases hL : jLook kvs "behavior" with
    | none => rfl
    | some w =>
      rw [hL, Option.getD_some] at hbh
      obtain ⟨bkvs, rfl, hok⟩ := partialBehavior_some_typed hbh
      exact hok

/-- C6 (amended): partial reconstruction is not total - it succeeds
exactly on the dict inputs whose relevant present fields are
well-typed (`repairableData`: intent/response strings, emoji/goal
strings or null, emotional_state and behavior dicts with a string
primary and numeric magnitudes, numeric confidence), and on every
other parsed value it raises (the enclosing bare `except:` then falls
through to heuristic synthesis; see the counterexample for a concrete
failing input). -/
theorem c6_amended_exact_success_domain (v : JValue) (u : String) :
    (buildPartialMeld v u).isSome = repairableData v := by
  cases hrep : repairableData v with
  | true => exact buildPartialMeld_isSome_of_repairable v u hrep
  | false =>
    cases hs : buildPartialMeld v u with
    | none => rfl
    | some m =>
      rw [repairable_of_buildPartialMeld_some hs] at hrep
      exact hrep
